import Mathlib

/-!
# The hybris backend of Xwayland's glamor (`hw/xwayland/xwayland-glamor-hybris.c`)

A shallow embedding of the backend's functions.  Pointers are natural numbers
with `0` for `NULL`; the pixmaps that are alive sit in a heap keyed by their
address.  Every call that leaves the file (EGL, GL, libhybris, Wayland, glamor,
fb) is recorded in a trace together with the value it returned, and that value
is supplied by an environment that may look at the whole trace so far.
Dereferencing `NULL` or an address that holds no pixmap is a fault.
-/

namespace XwlHybris

/-! ## Data model -/

/-- Enumerators and flag values that come from headers outside the file
(`scrnintstr.h`, `glamor.h`, `hybris_nativebufferext.h`, `EGL/egl.h`).  The
embedding takes them as given values. -/
structure Headers where
  CREATE_PIXMAP_USAGE_BACKING_PIXMAP : Nat
  CREATE_PIXMAP_USAGE_SHARED : Nat
  GLAMOR_CREATE_PIXMAP_NO_TEXTURE : Nat
  HYBRIS_PIXEL_FORMAT_RGBA_8888 : Int
  HYBRIS_USAGE_HW_RENDER : Int
  HYBRIS_USAGE_HW_TEXTURE : Int
  EGL_SUCCESS : Int

/-- The null image handle `EGL_NO_IMAGE_KHR`; handles are pointers, so it is `0`. -/
def EGL_NO_IMAGE_KHR : Nat := 0

/-- The storage class glamor records for a pixmap (`glamor_pixmap_type`). -/
inductive glamor_pixmap_type where
  | GLAMOR_MEMORY
  | GLAMOR_TEXTURE_DRM
  | GLAMOR_DRM_ONLY
  | GLAMOR_TEXTURE_ONLY
deriving DecidableEq, Repr

/-- The two texture parameters the binder sets, both to `GL_NEAREST`. -/
inductive gl_filter where
  | GL_TEXTURE_MIN_FILTER
  | GL_TEXTURE_MAG_FILTER
deriving DecidableEq, Repr

/-- The private record of a GPU-backed pixmap, `struct xwl_pixmap` (lines 53-60). -/
structure xwl_pixmap where
  buffer : Nat
  buf : Nat
  image : Nat
  texture : Nat
  stride : Int
  format : Int
deriving DecidableEq, Repr

/-- What the embedding keeps of a `PixmapRec`: the reference count, the drawable's
geometry, the texture and type glamor registered for it, and the private record
`xwl_pixmap_get` returns (`none` for `NULL`). -/
structure PixmapRec where
  refcnt : Int
  width : Nat
  height : Nat
  depth : Int
  usage_hint : Nat
  glamor_texture : Nat
  glamor_type : glamor_pixmap_type
  priv : Option xwl_pixmap
deriving DecidableEq, Repr

/-- A call that leaves the file, with its arguments and, last, what it returned
or wrote through its out-parameters. -/
inductive Event where
  | glamor_create_pixmap (w h depth : Int) (usage : Nat) (ret : Nat)
  | glamor_destroy_pixmap (pixmap : Nat)
  | glamor_set_pixmap_texture (pixmap tex : Nat)
  | glamor_set_pixmap_type (pixmap : Nat) (type : glamor_pixmap_type)
  | glamor_clear_pixmap (pixmap : Nat)
  | xwl_pixmap_set_private (pixmap : Nat) (xwl_pixmap : Option xwl_pixmap)
  | xwl_glamor_egl_make_current
  | eglCreateImageKHR (buf : Nat) (ret : Nat)
  | eglDestroyImageKHR (image : Nat)
  | eglGetError (ret : Int)
  | glGenTextures (tex : Nat)
  | glBindTexture (tex : Nat)
  | glTexParameteri (pname : gl_filter)
  | glEGLImageTargetTexture2DOES (image : Nat)
  | eglHybrisCreateNativeBuffer (w h usage format : Int) (stride : Int) (buf : Nat)
  | eglHybrisReleaseNativeBuffer (buf : Nat)
  | eglHybrisCreateRemoteBuffer (w h : Nat) (usage format : Int) (stride : Nat)
      (numInts : Nat) (ints : List Int) (numFds : Nat) (fds : List Int) (buf : Nat)
  | eglHybrisGetNativeBufferInfo (buf : Nat) (numInts numFds : Nat)
  | eglHybrisSerializeNativeBuffer (buf : Nat) (ints fds : List Int)
  | android_wlegl_create_handle (wlegl : Nat) (numFds : Nat) (ints : List Int) (ret : Nat)
  | android_wlegl_handle_add_fd (handle : Nat) (fd : Int)
  | android_wlegl_create_buffer (wlegl : Nat) (w h : Nat) (stride format usage : Int)
      (handle : Nat) (ret : Nat)
  | android_wlegl_handle_destroy (handle : Nat)
  | wl_buffer_destroy (buffer : Nat)
  | wl_registry_bind (id version : Nat) (ret : Nat)
  | drihybris_extension_init
  | fbDestroyPixmap (pixmap : Nat) (ret : Bool)
deriving DecidableEq, Repr

/-- Everything the file does not decide itself: the header constants, the answer
of each outside call (it may depend on all calls made before), and the values
that uninitialised locals happen to hold. -/
structure Env where
  hdr : Headers
  malloc_xwl_pixmap : List Event → Bool
  glamor_create_pixmap : List Event → Int → Int → Int → Nat → Bool
  glamor_set_pixmap_texture : List Event → Nat → Nat → Bool
  eglCreateImageKHR : List Event → Nat → Nat
  eglGetError : List Event → Int
  glGenTextures : List Event → Nat
  eglHybrisCreateNativeBuffer : List Event → Int → Int → Int → Int → Option Int × Option Nat
  eglHybrisCreateRemoteBuffer :
    List Event → Nat → Nat → Int → Int → Nat → Nat → List Int → Nat → List Int → Option Nat
  eglHybrisGetNativeBufferInfo : List Event → Nat → Option (Nat × Nat)
  eglHybrisSerializeNativeBuffer : List Event → Nat → (Nat → Int) × (Nat → Int)
  android_wlegl_create_handle : List Event → Nat → Nat → List Int → Nat
  android_wlegl_create_buffer : List Event → Nat → Nat → Nat → Int → Int → Int → Nat → Nat
  wl_registry_bind : List Event → Nat → Nat → Nat
  fbDestroyPixmap : List Event → Nat → Bool
  uninit_buf : Nat
  uninit_pixmap : Nat

/-- The state the file works on: the live pixmaps by address, the last address
handed out, `glamor_egl->android_wlegl`, `xwl_screen->rootless`,
`glamor_hybris_backend.is_available`, and the trace of outside calls. -/
structure State where
  heap : List (Nat × PixmapRec)
  last : Nat
  android_wlegl : Nat
  rootless : Bool
  is_available : Bool
  trace : List Event
deriving DecidableEq, Repr

/-- Why a run stopped: a `NULL` pointer or an address without a pixmap was dereferenced. -/
inductive Fault where
  | null_deref
  | wild_deref
deriving DecidableEq, Repr

/-- Outcome of running a function: its value and the state after it, or the fault
and the state at which it happened. -/
inductive Res (α : Type) where
  | ok (val : α) (st : State)
  | fault (f : Fault) (st : State)
deriving DecidableEq, Repr

/-- A computation over the state that may fault. -/
def M (α : Type) : Type := State → Res α

/-- Sequencing: a fault of the first part ends the run. -/
def M.bind {α β : Type} (m : M α) (f : α → M β) : M β := fun s =>
  match m s with
  | .ok a s1 => f a s1
  | .fault e s1 => .fault e s1

/-- A computation that returns a value and touches nothing. -/
def M.pure {α : Type} (a : α) : M α := fun s => .ok a s

instance : Monad M where
  pure := M.pure
  bind := M.bind

/-- The state a run ends in. -/
def Res.state {α : Type} : Res α → State
  | .ok _ s => s
  | .fault _ s => s

/-- The value of a run that did not fault. -/
def Res.value {α : Type} : Res α → Option α
  | .ok a _ => some a
  | .fault _ _ => none

/-! ## The heap of pixmaps -/

/-- The record stored at an address, if any. -/
def heap_lookup (p : Nat) : List (Nat × PixmapRec) → Option PixmapRec
  | [] => none
  | (a, r) :: t => if a = p then some r else heap_lookup p t

/-- Change the record stored at an address. -/
def heap_update (p : Nat) (f : PixmapRec → PixmapRec) :
    List (Nat × PixmapRec) → List (Nat × PixmapRec)
  | [] => []
  | (a, r) :: t => if a = p then (a, f r) :: t else (a, r) :: heap_update p f t

/-- Free the record stored at an address. -/
def heap_erase (p : Nat) : List (Nat × PixmapRec) → List (Nat × PixmapRec)
  | [] => []
  | (a, r) :: t => if a = p then t else (a, r) :: heap_erase p t

/-- The pixmap a pointer refers to in a state: nothing for `NULL` and for an
address without a pixmap. -/
def State.pixmap (s : State) (p : Nat) : Option PixmapRec :=
  if p = 0 then none else heap_lookup p s.heap

/-- Reading through a pixmap pointer (`pixmap->...`, `xwl_pixmap_get(pixmap)`). -/
def deref (p : Nat) : M PixmapRec := fun s =>
  if p = 0 then .fault .null_deref s
  else match heap_lookup p s.heap with
    | some r => .ok r s
    | none => .fault .wild_deref s

/-- Append one call to the trace. -/
def emit (e : Event) : M Unit := fun s => .ok () { s with trace := s.trace ++ [e] }

/-- An outside call whose answer comes from the environment: the answer may
depend on the trace so far, and the call is recorded with it. -/
def call {α : Type} (answer : List Event → α) (ev : α → Event) : M α := fun s =>
  .ok (answer s.trace) { s with trace := s.trace ++ [ev (answer s.trace)] }

/-- Change the record of a live pixmap. -/
def modify_pixmap (p : Nat) (f : PixmapRec → PixmapRec) : M Unit := fun s =>
  .ok () { s with heap := heap_update p f s.heap }

/-- Drop one reference of a pixmap, as `if (--pixmap->refcnt) return TRUE;` followed
by freeing it does. -/
def drop_reference (p : Nat) (heap : List (Nat × PixmapRec)) : List (Nat × PixmapRec) :=
  match heap_lookup p heap with
  | none => heap
  | some r =>
    if r.refcnt - 1 ≠ 0 then heap_update p (fun r => { r with refcnt := r.refcnt - 1 }) heap
    else heap_erase p heap

/-- Conversion of an `int` to `uint32_t`. -/
def to_uint32 (x : Int) : Int := x % 4294967296

/-- Conversion of a 32-bit pattern back to `int`. -/
def to_int32 (x : Int) : Int := (x + 2147483648) % 4294967296 - 2147483648

/-! ## Calls that leave the file -/

/-- The call `malloc(sizeof *xwl_pixmap)`: whether it gave memory. -/
def malloc_xwl_pixmap (env : Env) : M Bool := fun s => .ok (env.malloc_xwl_pixmap s.trace) s

/-- Modelled from the spec: the generic surface constructor `glamor_create_pixmap`
(glamor/glamor.c, not under src/).  It "creates a surface with no GPU-backed native
buffer": on success a fresh pixmap holding one reference, with the requested
geometry (the drawable's fields are 16 bits wide), no registered texture and no
private record; on failure `NULL`.  Whether it succeeds is the environment's. -/
def glamor_create_pixmap (env : Env) (w h depth : Int) (usage : Nat) : M Nat := fun s =>
  if env.glamor_create_pixmap s.trace w h depth usage then
    .ok (s.last + 1)
      { s with
        heap := (s.last + 1,
          { refcnt := 1, width := (w % 65536).toNat, height := (h % 65536).toNat,
            depth := depth, usage_hint := usage, glamor_texture := 0,
            glamor_type := .GLAMOR_MEMORY, priv := none }) :: s.heap
        last := s.last + 1
        trace := s.trace ++ [.glamor_create_pixmap w h depth usage (s.last + 1)] }
  else
    .ok 0 { s with trace := s.trace ++ [.glamor_create_pixmap w h depth usage 0] }

/-- Modelled from the spec: `glamor_destroy_pixmap` (glamor/glamor.c, not under
src/), the destructor paired with `glamor_create_pixmap`: "decrement reference
count; only the final release" frees the pixmap. -/
def glamor_destroy_pixmap (pixmap : Nat) : M Unit := fun s =>
  .ok () { s with heap := drop_reference pixmap s.heap
                  trace := s.trace ++ [.glamor_destroy_pixmap pixmap] }

/-- Modelled from the spec: the generic destructor `fbDestroyPixmap` (fb/fbpixmap.c,
not under src/): "decrement reference count; only the final release" frees the
pixmap.  Its return value is the environment's. -/
def fbDestroyPixmap (env : Env) (pixmap : Nat) : M Bool := fun s =>
  .ok (env.fbDestroyPixmap s.trace pixmap)
    { s with heap := drop_reference pixmap s.heap
             trace := s.trace ++ [.fbDestroyPixmap pixmap (env.fbDestroyPixmap s.trace pixmap)] }

/-- Modelled from the spec: `glamor_set_pixmap_texture` (glamor/glamor.c, not under
src/) "registers the texture as the Surface's backing storage"; as the comment at
lines 120-122 says it "may fail silently if the FBO creation failed", and then the
pixmap has no texture. -/
def glamor_set_pixmap_texture (env : Env) (pixmap tex : Nat) : M Unit := fun s =>
  .ok ()
    { s with
      heap := heap_update pixmap
        (fun r => { r with
          glamor_texture := if env.glamor_set_pixmap_texture s.trace pixmap tex then tex else 0 })
        s.heap
      trace := s.trace ++ [.glamor_set_pixmap_texture pixmap tex] }

/-- Modelled from the spec: `glamor_get_pixmap_texture` (glamor/glamor.c, not under
src/) reads the texture registered for the pixmap, `0` when there is none. -/
def glamor_get_pixmap_texture (pixmap : Nat) : M Nat := fun s =>
  .ok ((heap_lookup pixmap s.heap).elim 0 PixmapRec.glamor_texture) s

/-- Modelled from the spec: `glamor_set_pixmap_type` (glamor/glamor.c, not under
src/) "marks the Surface's storage class". -/
def glamor_set_pixmap_type (pixmap : Nat) (type : glamor_pixmap_type) : M Unit := fun s =>
  .ok ()
    { s with
      heap := heap_update pixmap (fun r => { r with glamor_type := type }) s.heap
      trace := s.trace ++ [.glamor_set_pixmap_type pixmap type] }

/-- Modelled from the spec: `xwl_pixmap_set_private` (xwayland.h, not under src/)
attaches the private record to the pixmap, or detaches it for `NULL`. -/
def xwl_pixmap_set_private (pixmap : Nat) (xwl_pixmap : Option xwl_pixmap) : M Unit := fun s =>
  .ok ()
    { s with
      heap := heap_update pixmap (fun r => { r with priv := xwl_pixmap }) s.heap
      trace := s.trace ++ [.xwl_pixmap_set_private pixmap xwl_pixmap] }

/-- The call `eglCreateImageKHR(display, EGL_NO_CONTEXT, EGL_NATIVE_BUFFER_HYBRIS, buf, NULL)`. -/
def eglCreateImageKHR (env : Env) (buf : Nat) : M Nat :=
  call (fun t => env.eglCreateImageKHR t buf) (fun r => .eglCreateImageKHR buf r)

/-- The call `glGenTextures(1, &xwl_pixmap->texture)`: the value the field holds afterwards. -/
def glGenTextures (env : Env) : M Nat :=
  call env.glGenTextures (fun r => .glGenTextures r)

/-- The call `eglGetError()`. -/
def eglGetError (env : Env) : M Int :=
  call env.eglGetError (fun r => .eglGetError r)

/-- The call `eglHybrisCreateNativeBuffer(w, h, usage, format, &stride, &buf)`.  The
two outputs keep the value they had when the allocator does not write them. -/
def eglHybrisCreateNativeBuffer (env : Env) (w h usage format : Int) (stride : Int)
    (buf : Nat) : M (Int × Nat) :=
  call
    (fun t =>
      (((env.eglHybrisCreateNativeBuffer t w h usage format).1).getD stride,
       ((env.eglHybrisCreateNativeBuffer t w h usage format).2).getD buf))
    (fun r => .eglHybrisCreateNativeBuffer w h usage format r.1 r.2)

/-- The call `eglHybrisCreateRemoteBuffer(..., &buf)`; `buf` keeps its value when
nothing is written. -/
def eglHybrisCreateRemoteBuffer (env : Env) (w h : Nat) (usage format : Int) (stride : Nat)
    (numInts : Nat) (ints : List Int) (numFds : Nat) (fds : List Int) (buf : Nat) : M Nat :=
  call
    (fun t =>
      (env.eglHybrisCreateRemoteBuffer t w h usage format stride numInts ints numFds fds).getD buf)
    (fun r => .eglHybrisCreateRemoteBuffer w h usage format stride numInts ints numFds fds r)

/-- The call `eglHybrisGetNativeBufferInfo(buf, &numInts, &numFds)`; the counts
keep their value when nothing is written. -/
def eglHybrisGetNativeBufferInfo (env : Env) (buf : Nat) (numInts numFds : Nat) :
    M (Nat × Nat) :=
  call (fun t => (env.eglHybrisGetNativeBufferInfo t buf).getD (numInts, numFds))
    (fun r => .eglHybrisGetNativeBufferInfo buf r.1 r.2)

/-- The call `eglHybrisSerializeNativeBuffer(buf, ints, fds)` on two arrays of
`numInts` and `numFds` cells: the contents of the arrays afterwards. -/
def eglHybrisSerializeNativeBuffer (env : Env) (buf : Nat) (numInts numFds : Nat) :
    M (List Int × List Int) :=
  call
    (fun t =>
      ((List.range numInts).map (env.eglHybrisSerializeNativeBuffer t buf).1,
       (List.range numFds).map (env.eglHybrisSerializeNativeBuffer t buf).2))
    (fun r => .eglHybrisSerializeNativeBuffer buf r.1 r.2)

/-- The request `android_wlegl_create_handle(wlegl, numFds, &wl_ints)`. -/
def android_wlegl_create_handle (env : Env) (wlegl numFds : Nat) (ints : List Int) : M Nat :=
  call (fun t => env.android_wlegl_create_handle t wlegl numFds ints)
    (fun r => .android_wlegl_create_handle wlegl numFds ints r)

/-- The request `android_wlegl_create_buffer(wlegl, w, h, stride, format, usage, handle)`. -/
def android_wlegl_create_buffer (env : Env) (wlegl w h : Nat) (stride format usage : Int)
    (handle : Nat) : M Nat :=
  call (fun t => env.android_wlegl_create_buffer t wlegl w h stride format usage handle)
    (fun r => .android_wlegl_create_buffer wlegl w h stride format usage handle r)

/-- The call `wl_registry_bind(wl_registry, id, &android_wlegl_interface, version)`. -/
def wl_registry_bind (env : Env) (id version : Nat) : M Nat :=
  call (fun t => env.wl_registry_bind t id version) (fun r => .wl_registry_bind id version r)

/-- Read `glamor_egl->android_wlegl`. -/
def get_android_wlegl : M Nat := fun s => .ok s.android_wlegl s

/-- Assign `glamor_egl->android_wlegl`. -/
def set_android_wlegl (b : Nat) : M Unit := fun s => .ok () { s with android_wlegl := b }

/-- Read `xwl_screen->rootless`. -/
def get_rootless : M Bool := fun s => .ok s.rootless s

/-! ## The functions of the file -/

/-- The label `error:` of `xwl_glamor_hybris_create_pixmap_for_native_buffer`
(lines 131-138): destroy the image if there is one, destroy the pixmap, free the
record, return `NULL`.  It is reached with a pixmap that is not `NULL`. -/
def xwl_glamor_hybris_create_pixmap_for_native_buffer_error (pixmap image : Nat) : M Nat := do
  if image ≠ EGL_NO_IMAGE_KHR then
    emit (.eglDestroyImageKHR image)
  if pixmap ≠ 0 then
    glamor_destroy_pixmap pixmap
  pure 0

/-- The binder, `xwl_glamor_hybris_create_pixmap_for_native_buffer` (lines 74-140). -/
def xwl_glamor_hybris_create_pixmap_for_native_buffer (env : Env) (buf : Nat)
    (width height depth format stride : Int) : M Nat := do
  let xwl_pixmap ← malloc_xwl_pixmap env
  if xwl_pixmap = false then
    pure 0
  else
    let pixmap ← glamor_create_pixmap env width height depth
      env.hdr.GLAMOR_CREATE_PIXMAP_NO_TEXTURE
    if pixmap = 0 then
      pure 0
    else
      emit .xwl_glamor_egl_make_current
      let image ← eglCreateImageKHR env buf
      if image = EGL_NO_IMAGE_KHR then
        xwl_glamor_hybris_create_pixmap_for_native_buffer_error pixmap image
      else
        let texture ← glGenTextures env
        emit (.glBindTexture texture)
        emit (.glTexParameteri .GL_TEXTURE_MIN_FILTER)
        emit (.glTexParameteri .GL_TEXTURE_MAG_FILTER)
        emit (.glEGLImageTargetTexture2DOES image)
        let err ← eglGetError env
        if err ≠ env.hdr.EGL_SUCCESS then
          xwl_glamor_hybris_create_pixmap_for_native_buffer_error pixmap image
        else
          emit (.glBindTexture 0)
          glamor_set_pixmap_texture env pixmap texture
          let registered ← glamor_get_pixmap_texture pixmap
          if registered = 0 then
            xwl_glamor_hybris_create_pixmap_for_native_buffer_error pixmap image
          else
            glamor_set_pixmap_type pixmap .GLAMOR_TEXTURE_DRM
            xwl_pixmap_set_private pixmap
              (some { buffer := 0, buf := buf, image := image, texture := texture,
                      stride := stride, format := format })
            pure pixmap

/-- The surface constructor, `xwl_glamor_hybris_create_pixmap` (lines 142-174). -/
def xwl_glamor_hybris_create_pixmap (env : Env) (width height depth : Int) (hint : Nat) :
    M Nat := do
  let pixmap ←
    if 0 < width ∧ 0 < height ∧ 15 ≤ depth ∧
        (hint = 0 ∨ hint = env.hdr.CREATE_PIXMAP_USAGE_BACKING_PIXMAP ∨
          hint = env.hdr.CREATE_PIXMAP_USAGE_SHARED) then do
      let m_format := env.hdr.HYBRIS_PIXEL_FORMAT_RGBA_8888
      let m_usage := env.hdr.HYBRIS_USAGE_HW_RENDER
      let out ← eglHybrisCreateNativeBuffer env width height m_usage m_format 0 env.uninit_buf
      let pixmap ← xwl_glamor_hybris_create_pixmap_for_native_buffer env out.2 width height
        depth m_format (to_int32 (to_uint32 out.1))
      let rootless ← get_rootless
      if pixmap ≠ 0 ∧ rootless = true ∧ hint = env.hdr.CREATE_PIXMAP_USAGE_BACKING_PIXMAP then
        emit (.glamor_clear_pixmap pixmap)
      pure pixmap
    else
      pure 0
  if pixmap = 0 then
    glamor_create_pixmap env width height depth hint
  else
    pure pixmap

/-- The surface destructor, `xwl_glamor_hybris_destroy_pixmap` (lines 176-195).  The
first two lines read through `pixmap`. -/
def xwl_glamor_hybris_destroy_pixmap (env : Env) (pixmap : Nat) : M Bool := do
  let r ← deref pixmap
  match r.priv with
  | some xwl_pixmap =>
    if r.refcnt = 1 then
      if xwl_pixmap.buffer ≠ 0 then
        emit (.wl_buffer_destroy xwl_pixmap.buffer)
      emit (.eglDestroyImageKHR xwl_pixmap.image)
      if xwl_pixmap.buf ≠ 0 then
        emit (.eglHybrisReleaseNativeBuffer xwl_pixmap.buf)
      xwl_pixmap_set_private pixmap none
  | none => pure ()
  fbDestroyPixmap env pixmap

/-- The loop of lines 244-246 over an array of `numFds` descriptors, in index order. -/
def android_wlegl_handle_add_fds (handle : Nat) : List Int → M Unit
  | [] => pure ()
  | fd :: rest => do
    emit (.android_wlegl_handle_add_fd handle fd)
    android_wlegl_handle_add_fds handle rest

/-- The transport-handle getter, `xwl_glamor_hybris_get_wl_buffer_for_pixmap`
(lines 197-252).  `created` is the cell the caller passed (`none` for `NULL`); the
result is the returned buffer and the cell afterwards. -/
def xwl_glamor_hybris_get_wl_buffer_for_pixmap (env : Env) (pixmap : Nat)
    (created : Option Bool) : M (Nat × Option Bool) := do
  let r ← deref pixmap
  let width := r.width
  let height := r.height
  match r.priv with
  | none => pure (0, created)
  | some xwl_pixmap =>
    if xwl_pixmap.buffer ≠ 0 then
      pure (xwl_pixmap.buffer, created.map (fun _ => false))
    else
      let created := created.map (fun _ => true)
      if xwl_pixmap.buf = 0 then
        pure (0, created)
      else
        let info ← eglHybrisGetNativeBufferInfo env xwl_pixmap.buf 0 0
        let arrays ← eglHybrisSerializeNativeBuffer env xwl_pixmap.buf info.1 info.2
        let wlegl ← get_android_wlegl
        let wlegl_handle ← android_wlegl_create_handle env wlegl info.2 arrays.1
        android_wlegl_handle_add_fds wlegl_handle arrays.2
        let buffer ← android_wlegl_create_buffer env wlegl width height xwl_pixmap.stride
          xwl_pixmap.format env.hdr.HYBRIS_USAGE_HW_RENDER wlegl_handle
        modify_pixmap pixmap (fun r => { r with priv := some { xwl_pixmap with buffer := buffer } })
        emit (.android_wlegl_handle_destroy wlegl_handle)
        pure (buffer, created)

/-- The registry hook, `xwl_glamor_hybris_init_wl_registry` (lines 254-268). -/
def xwl_glamor_hybris_init_wl_registry (env : Env) (id : Nat) (name : String)
    (version : Nat) : M Bool := do
  if name = "android_wlegl" then
    let binding ← wl_registry_bind env id version
    set_android_wlegl binding
    pure true
  else
    pure false

/-- The availability hook, `xwl_glamor_hybris_has_wl_interfaces` (lines 270-274). -/
def xwl_glamor_hybris_has_wl_interfaces : M Bool :=
  pure true

/-- The import half of the capability pair, `glamor_back_pixmap_from_hybris_buffer`
(lines 377-400).  `pixmap` is the cell `*pixmap`; the result is the return value
and the cell afterwards. -/
def glamor_back_pixmap_from_hybris_buffer (env : Env) (pixmap : Nat)
    (width height stride depth bpp : Nat) (numInts : Nat) (ints : List Int)
    (numFds : Nat) (fds : List Int) : M (Bool × Nat) := do
  let format := env.hdr.HYBRIS_PIXEL_FORMAT_RGBA_8888
  if bpp ≠ 32 ∨ ¬ (depth = 24 ∨ depth = 32) ∨ width = 0 ∨ height = 0 then
    pure (false, pixmap)
  else
    let buf ← eglHybrisCreateRemoteBuffer env width height env.hdr.HYBRIS_USAGE_HW_TEXTURE
      format stride numInts ints numFds fds env.uninit_buf
    let pixmap ← xwl_glamor_hybris_create_pixmap_for_native_buffer env buf width height depth
      format stride
    if pixmap = 0 then
      pure (false, pixmap)
    else
      pure (true, pixmap)

/-- The import entry point, `glamor_pixmap_from_hybris_buffer` (lines 402-423).  The
local `pixmap` starts with whatever the stack holds; `screen->DestroyPixmap` is
`xwl_glamor_hybris_destroy_pixmap` (line 455). -/
def glamor_pixmap_from_hybris_buffer (env : Env) (width height stride depth bpp : Nat)
    (numInts : Nat) (ints : List Int) (numFds : Nat) (fds : List Int) : M Nat := do
  let out ← glamor_back_pixmap_from_hybris_buffer env env.uninit_pixmap width height stride
    depth bpp numInts ints numFds fds
  if out.1 = false then
    let _ ← xwl_glamor_hybris_destroy_pixmap env out.2
    pure 0
  else
    pure out.2

/-- What `glamor_hybris_buffer_from_pixmap` leaves in its five out-parameters. -/
structure buffer_from_pixmap_out where
  stride : Nat
  numInts : Nat
  ints : List Int
  numFds : Nat
  fds : List Int
deriving DecidableEq, Repr

/-- The export half of the capability pair, `glamor_hybris_buffer_from_pixmap`
(lines 425-440).  `stride`, `numInts`, `numFds` are the cells as the caller passed
them; the result is the return value and the out-parameters afterwards.  Reading
`xwl_pixmap->buffer` faults when the pixmap has no private record. -/
def glamor_hybris_buffer_from_pixmap (env : Env) (pixmap : Nat) (stride numInts numFds : Nat) :
    M (Int × buffer_from_pixmap_out) := do
  let r ← deref pixmap
  match r.priv with
  | none => fun s => .fault .null_deref s
  | some xwl_pixmap =>
    let info ← eglHybrisGetNativeBufferInfo env xwl_pixmap.buffer numInts numFds
    let arrays ← eglHybrisSerializeNativeBuffer env xwl_pixmap.buffer info.1 info.2
    pure (0, { stride := stride, numInts := info.1, ints := arrays.1,
               numFds := info.2, fds := arrays.2 })

/-- The backend's entry point, `xwl_glamor_init_hybris` (lines 459-473): `calloc`
gives a zeroed `glamor_egl`, the extension is initialised, the hooks are installed
and the backend is marked available. -/
def xwl_glamor_init_hybris : M Unit := do
  set_android_wlegl 0
  (fun s => .ok () { s with is_available := false })
  emit .drihybris_extension_init
  (fun s => .ok () { s with is_available := true })

/-- The calls of a trace that release a resource of a surface: `wl_buffer_destroy`,
`eglDestroyImageKHR` and `eglHybrisReleaseNativeBuffer`. -/
def release_calls (t : List Event) : List Event :=
  t.filter (fun e =>
    match e with
    | .wl_buffer_destroy _ => true
    | .eglDestroyImageKHR _ => true
    | .eglHybrisReleaseNativeBuffer _ => true
    | _ => false)

/-- The number of `eglHybrisReleaseNativeBuffer` calls in a trace. -/
def native_buffer_releases (t : List Event) : Nat :=
  t.countP (fun e =>
    match e with
    | .eglHybrisReleaseNativeBuffer _ => true
    | _ => false)

/-- One announcement of the registry: the arguments `id`, `name`, `version` of the hook. -/
structure Announcement where
  id : Nat
  name : String
  version : Nat
deriving DecidableEq, Repr

/-- The registry hook run on a sequence of announcements, in order. -/
def announce (env : Env) : List Announcement → M Unit
  | [] => pure ()
  | a :: rest => do
    let _ ← xwl_glamor_hybris_init_wl_registry env a.id a.name a.version
    announce env rest

/-- What the availability hook answers after the backend was initialised and the
given announcements were processed. -/
def has_wl_interfaces_after (env : Env) (announcements : List Announcement) : M Bool := do
  xwl_glamor_init_hybris
  announce env announcements
  xwl_glamor_hybris_has_wl_interfaces

/-! ## Concrete environments and states -/

/-- An assignment of the header constants, used in the concrete runs. -/
def sample_headers : Headers where
  CREATE_PIXMAP_USAGE_BACKING_PIXMAP := 2
  CREATE_PIXMAP_USAGE_SHARED := 4
  GLAMOR_CREATE_PIXMAP_NO_TEXTURE := 262
  HYBRIS_PIXEL_FORMAT_RGBA_8888 := 1
  HYBRIS_USAGE_HW_RENDER := 512
  HYBRIS_USAGE_HW_TEXTURE := 256
  EGL_SUCCESS := 12288

/-- An environment in which every outside call succeeds: the allocator hands out
native buffer 40 with a stride equal to the width, a remote buffer is 41, the image
of buffer `b` is `b + 100`, textures are named 7, the codec knows buffers 40 and 41
only and describes each by three integers and two descriptors, handles are 50,
transport buffers 60 and the registry binding 70.  Uninitialised locals hold `0`. -/
def sample_env : Env where
  hdr := sample_headers
  malloc_xwl_pixmap := fun _ => true
  glamor_create_pixmap := fun _ _ _ _ _ => true
  glamor_set_pixmap_texture := fun _ _ _ => true
  eglCreateImageKHR := fun _ buf => buf + 100
  eglGetError := fun _ => 12288
  glGenTextures := fun _ => 7
  eglHybrisCreateNativeBuffer := fun _ w _ _ _ => (some w, some 40)
  eglHybrisCreateRemoteBuffer := fun _ _ _ _ _ _ _ _ _ _ => some 41
  eglHybrisGetNativeBufferInfo := fun _ buf => if buf = 40 ∨ buf = 41 then some (3, 2) else none
  eglHybrisSerializeNativeBuffer := fun _ buf =>
    if buf = 40 ∨ buf = 41 then (fun i => 10 + i, fun i => 20 + i) else (fun _ => 0, fun _ => 0)
  android_wlegl_create_handle := fun _ _ _ _ => 50
  android_wlegl_create_buffer := fun _ _ _ _ _ _ _ _ => 60
  wl_registry_bind := fun _ _ _ => 70
  fbDestroyPixmap := fun _ _ => true
  uninit_buf := 0
  uninit_pixmap := 0

/-- The environment `sample_env`, except that `eglCreateImageKHR` refuses every buffer. -/
def import_failing_env : Env :=
  { sample_env with eglCreateImageKHR := fun _ _ => 0 }

/-- The environment `sample_env`, except that `android_wlegl_create_buffer` returns
`NULL` (the proxy could not be created). -/
def construction_failing_env : Env :=
  { sample_env with android_wlegl_create_buffer := fun _ _ _ _ _ _ _ _ => 0 }

/-- The environment `sample_env`, except that the uninitialised local `pixmap` of
`glamor_pixmap_from_hybris_buffer` happens to hold the address 1. -/
def stale_pointer_env : Env :=
  { sample_env with uninit_pixmap := 1 }

/-- The state before any pixmap exists and before any call was made. -/
def empty_state : State where
  heap := []
  last := 0
  android_wlegl := 0
  rootless := false
  is_available := false
  trace := []

/-- The private record `xwl_glamor_hybris_create_pixmap` attaches under `sample_env`
to an 800 pixels wide pixmap: native buffer 40, image 140, texture 7, no transport
buffer yet. -/
def bound_record : xwl_pixmap where
  buffer := 0
  buf := 40
  image := 140
  texture := 7
  stride := 800
  format := 1

/-- The record `bound_record` after a transport buffer, 60, was cached. -/
def shared_record : xwl_pixmap :=
  { bound_record with buffer := 60 }

/-- A record without a native buffer: `buf` is `NULL`. -/
def no_native_record : xwl_pixmap :=
  { bound_record with buf := 0 }

/-- An 800x600 pixmap of depth 24 with the given reference count and private record. -/
def surface_record (refcnt : Int) (priv : Option xwl_pixmap) : PixmapRec where
  refcnt := refcnt
  width := 800
  height := 600
  depth := 24
  usage_hint := 262
  glamor_texture := 7
  glamor_type := .GLAMOR_TEXTURE_DRM
  priv := priv

/-- The seven calls that build a transport buffer for native buffer 40 under
`construction_failing_env`; the last but one returns `NULL`. -/
def failed_construction_calls : List Event :=
  [.eglHybrisGetNativeBufferInfo 40 3 2,
   .eglHybrisSerializeNativeBuffer 40 [10, 11, 12] [20, 21],
   .android_wlegl_create_handle 0 2 [10, 11, 12] 50,
   .android_wlegl_handle_add_fd 50 20,
   .android_wlegl_handle_add_fd 50 21,
   .android_wlegl_create_buffer 0 800 600 800 1 512 50 0,
   .android_wlegl_handle_destroy 50]

/-- A state with the one pixmap `surface_record refcnt priv`, at address 1. -/
def surface_state (refcnt : Int) (priv : Option xwl_pixmap) : State :=
  { empty_state with
    heap := [(1, surface_record refcnt priv)]
    last := 1 }

/-! ## Basic facts about the embedding -/

@[simp] theorem bind_apply {α β : Type} (m : M α) (f : α → M β) (s : State) :
    (m >>= f) s = match m s with
      | .ok a s1 => f a s1
      | .fault e s1 => .fault e s1 := rfl

@[simp] theorem pure_apply {α : Type} (a : α) (s : State) : (pure a : M α) s = .ok a s := rfl

theorem pixmap_ne_zero {s : State} {p : Nat} {r : PixmapRec} (h : s.pixmap p = some r) :
    p ≠ 0 := by
  intro h0
  simp [State.pixmap, h0] at h

theorem pixmap_lookup {s : State} {p : Nat} {r : PixmapRec} (h : s.pixmap p = some r) :
    heap_lookup p s.heap = some r := by
  have h0 := pixmap_ne_zero h
  simpa [State.pixmap, h0] using h

theorem deref_of_pixmap {s : State} {p : Nat} {r : PixmapRec} (h : s.pixmap p = some r) :
    deref p s = .ok r s := by
  simp [deref, pixmap_ne_zero h, pixmap_lookup h]

theorem heap_lookup_update (p : Nat) (f : PixmapRec → PixmapRec) (heap : List (Nat × PixmapRec))
    (r : PixmapRec) (h : heap_lookup p heap = some r) :
    heap_lookup p (heap_update p f heap) = some (f r) := by
  induction heap with
  | nil => simp [heap_lookup] at h
  | cons hd tl ih =>
    obtain ⟨a, ra⟩ := hd
    by_cases ha : a = p
    · simp [heap_lookup, heap_update, ha] at h ⊢
      rw [h]
    · simp [heap_lookup, heap_update, ha] at h ⊢
      exact ih h

theorem add_fds_run (handle : Nat) (fds : List Int) (s : State) :
    android_wlegl_handle_add_fds handle fds s
      = .ok () { s with trace := s.trace ++ fds.map (Event.android_wlegl_handle_add_fd handle) } := by
  induction fds generalizing s with
  | nil => simp [android_wlegl_handle_add_fds]
  | cons fd rest ih =>
    simp [android_wlegl_handle_add_fds, emit, ih]

/-! ## C1: an invalid request goes straight to the generic constructor -/

/-- C1. For a request with `width <= 0`, `height <= 0`, `depth < 15` or a hint outside
`{0, CREATE_PIXMAP_USAGE_BACKING_PIXMAP, CREATE_PIXMAP_USAGE_SHARED}`, the run of
`xwl_glamor_hybris_create_pixmap` is the run of the generic
`glamor_create_pixmap(screen, width, height, depth, hint)` with the original
arguments: the same returned pixmap, the same state, no fault, and the only call
added to the trace is that one (so neither the allocator nor the binder is called). -/
theorem create_pixmap_invalid_request_is_generic (env : Env) (width height depth : Int)
    (hint : Nat) (s : State)
    (h : width ≤ 0 ∨ height ≤ 0 ∨ depth < 15 ∨
      ¬ (hint = 0 ∨ hint = env.hdr.CREATE_PIXMAP_USAGE_BACKING_PIXMAP ∨
          hint = env.hdr.CREATE_PIXMAP_USAGE_SHARED)) :
    xwl_glamor_hybris_create_pixmap env width height depth hint s
        = glamor_create_pixmap env width height depth hint s ∧
      ∃ ret s1, xwl_glamor_hybris_create_pixmap env width height depth hint s = .ok ret s1 ∧
        s1.trace = s.trace ++ [.glamor_create_pixmap width height depth hint ret] := by
  have hc : ¬ (0 < width ∧ 0 < height ∧ 15 ≤ depth ∧
        (hint = 0 ∨ hint = env.hdr.CREATE_PIXMAP_USAGE_BACKING_PIXMAP ∨
          hint = env.hdr.CREATE_PIXMAP_USAGE_SHARED)) := by
    rintro ⟨h1, h2, h3, h4⟩
    rcases h with h | h | h | h
    · omega
    · omega
    · omega
    · exact h h4
  have heq : xwl_glamor_hybris_create_pixmap env width height depth hint s
      = glamor_create_pixmap env width height depth hint s := by
    simp only [xwl_glamor_hybris_create_pixmap, hc, if_false, bind_apply, pure_apply]
    simp
  refine ⟨heq, ?_⟩
  rw [heq]
  by_cases hok : env.glamor_create_pixmap s.trace width height depth hint = true
  · simp only [glamor_create_pixmap, hok, if_true]
    exact ⟨_, _, rfl, rfl⟩
  · simp only [glamor_create_pixmap, hok, Bool.false_eq_true, if_false]
    exact ⟨_, _, rfl, rfl⟩

/-- C1 at a request of width 0: the only call is the generic constructor. -/
theorem create_pixmap_invalid_request_is_generic_witness :
    ((0 : Int) ≤ 0 ∨ (600 : Int) ≤ 0 ∨ (24 : Int) < 15 ∨
      ¬ ((0 : Nat) = 0 ∨ 0 = sample_env.hdr.CREATE_PIXMAP_USAGE_BACKING_PIXMAP ∨
          0 = sample_env.hdr.CREATE_PIXMAP_USAGE_SHARED)) ∧
    (xwl_glamor_hybris_create_pixmap sample_env 0 600 24 0 empty_state
        = glamor_create_pixmap sample_env 0 600 24 0 empty_state ∧
      ∃ ret s1, xwl_glamor_hybris_create_pixmap sample_env 0 600 24 0 empty_state = .ok ret s1 ∧
        s1.trace = empty_state.trace ++ [.glamor_create_pixmap 0 600 24 0 ret]) :=
  ⟨Or.inl (le_refl 0),
    create_pixmap_invalid_request_is_generic sample_env 0 600 24 0 empty_state
      (Or.inl (le_refl 0))⟩

/-! ## C3 and C4: the destructor -/

/-- C3, as stated, fails: a GPU-backed pixmap whose record has `buf == NULL`, at its
final release, gets no `eglHybrisReleaseNativeBuffer` call at all (the guard of line
187 skips it); the only release call is the `eglDestroyImageKHR` of line 186. -/
theorem destroy_pixmap_without_native_buffer_releases_none :
    xwl_glamor_hybris_destroy_pixmap sample_env 1 (surface_state 1 (some no_native_record))
        = .ok true
          { empty_state with
            last := 1
            trace := [.eglDestroyImageKHR 140, .xwl_pixmap_set_private 1 none,
                      .fbDestroyPixmap 1 true] } ∧
      ¬ native_buffer_releases
          (xwl_glamor_hybris_destroy_pixmap sample_env 1
            (surface_state 1 (some no_native_record))).state.trace = 1 := by
  decide

/-- C3, amended. At the final release (`refcnt == 1`) of a pixmap with a private
record, the calls `xwl_glamor_hybris_destroy_pixmap` adds to the trace are, in this
order: `wl_buffer_destroy` of the cached transport buffer if there is one, exactly
one `eglDestroyImageKHR` of the record's image, `eglHybrisReleaseNativeBuffer` of
the record's native buffer if `buf` is not `NULL`, the detaching of the record, and
`fbDestroyPixmap`.  So the release calls come as transport buffer, image, native
buffer; the native buffer is released once when there is one and never before the
image is destroyed. -/
theorem destroy_pixmap_final_release_order (env : Env) (s : State) (pixmap : Nat)
    (r : PixmapRec) (x : xwl_pixmap)
    (hp : s.pixmap pixmap = some r) (hx : r.priv = some x) (href : r.refcnt = 1) :
    ∃ ret s1, xwl_glamor_hybris_destroy_pixmap env pixmap s = .ok ret s1 ∧
      s1.trace = s.trace
        ++ (if x.buffer ≠ 0 then [Event.wl_buffer_destroy x.buffer] else [])
        ++ [Event.eglDestroyImageKHR x.image]
        ++ (if x.buf ≠ 0 then [Event.eglHybrisReleaseNativeBuffer x.buf] else [])
        ++ [Event.xwl_pixmap_set_private pixmap none, Event.fbDestroyPixmap pixmap ret] ∧
      release_calls (s1.trace.drop s.trace.length)
        = (if x.buffer ≠ 0 then [Event.wl_buffer_destroy x.buffer] else [])
          ++ [Event.eglDestroyImageKHR x.image]
          ++ (if x.buf ≠ 0 then [Event.eglHybrisReleaseNativeBuffer x.buf] else []) := by
  by_cases hb : x.buffer = 0 <;> by_cases hn : x.buf = 0 <;>
  · simp only [xwl_glamor_hybris_destroy_pixmap, bind_apply, pure_apply, deref_of_pixmap hp, hx,
      href, hb, hn, emit, xwl_pixmap_set_private, fbDestroyPixmap, ne_eq, not_true_eq_false,
      not_false_eq_true, if_true, if_false]
    exact ⟨_, _, rfl, by simp, by simp [release_calls]⟩

/-- C3 amended, at a pixmap with a cached transport buffer 60, image 140 and native
buffer 40: the three releases, in that order. -/
theorem destroy_pixmap_final_release_order_witness :
    (surface_state 1 (some shared_record)).pixmap 1
        = some (surface_record 1 (some shared_record)) ∧
      (surface_record 1 (some shared_record)).priv = some shared_record ∧
      (surface_record 1 (some shared_record)).refcnt = 1 ∧
      ∃ ret s1, xwl_glamor_hybris_destroy_pixmap sample_env 1
          (surface_state 1 (some shared_record)) = .ok ret s1 ∧
        s1.trace = (surface_state 1 (some shared_record)).trace
          ++ (if shared_record.buffer ≠ 0 then [Event.wl_buffer_destroy shared_record.buffer]
              else [])
          ++ [Event.eglDestroyImageKHR shared_record.image]
          ++ (if shared_record.buf ≠ 0
              then [Event.eglHybrisReleaseNativeBuffer shared_record.buf] else [])
          ++ [Event.xwl_pixmap_set_private 1 none, Event.fbDestroyPixmap 1 ret] ∧
        release_calls (s1.trace.drop (surface_state 1 (some shared_record)).trace.length)
          = (if shared_record.buffer ≠ 0 then [Event.wl_buffer_destroy shared_record.buffer]
              else [])
            ++ [Event.eglDestroyImageKHR shared_record.image]
            ++ (if shared_record.buf ≠ 0
                then [Event.eglHybrisReleaseNativeBuffer shared_record.buf] else []) :=
  ⟨by decide, rfl, rfl,
    destroy_pixmap_final_release_order sample_env (surface_state 1 (some shared_record)) 1
      (surface_record 1 (some shared_record)) shared_record (by decide) rfl rfl⟩

/-- C4. With `pixmap` a live pixmap: when it has no private record or its reference
count is not 1, the run of `xwl_glamor_hybris_destroy_pixmap` is the run of
`fbDestroyPixmap(pixmap)` from the unchanged state, so it makes no
`wl_buffer_destroy`, `eglDestroyImageKHR` or `eglHybrisReleaseNativeBuffer` call,
and a pixmap that keeps references keeps its record (all that changes is the
reference count the generic destructor drops).  In every case the calls it adds to
the trace end with one `fbDestroyPixmap` on the same pixmap, none before it, and the
value returned is the value that call returned. -/
theorem destroy_pixmap_tears_down_only_on_final_release (env : Env) (s : State)
    (pixmap : Nat) (r : PixmapRec) (hp : s.pixmap pixmap = some r) :
    ((r.priv = none ∨ r.refcnt ≠ 1) →
      xwl_glamor_hybris_destroy_pixmap env pixmap s = fbDestroyPixmap env pixmap s ∧
      release_calls
        ((xwl_glamor_hybris_destroy_pixmap env pixmap s).state.trace.drop s.trace.length) = [] ∧
      (r.refcnt ≠ 1 →
        (xwl_glamor_hybris_destroy_pixmap env pixmap s).state.pixmap pixmap
          = some { r with refcnt := r.refcnt - 1 })) ∧
    (∃ ret s1 before, xwl_glamor_hybris_destroy_pixmap env pixmap s = .ok ret s1 ∧
      s1.trace = s.trace ++ before ++ [Event.fbDestroyPixmap pixmap ret] ∧
      ∀ q b, Event.fbDestroyPixmap q b ∉ before) := by
  have h0 := pixmap_ne_zero hp
  have hl := pixmap_lookup hp
  constructor
  · intro hcase
    have heq : xwl_glamor_hybris_destroy_pixmap env pixmap s = fbDestroyPixmap env pixmap s := by
      rcases hcase with hnone | href
      · simp only [xwl_glamor_hybris_destroy_pixmap, bind_apply, pure_apply, deref_of_pixmap hp,
          hnone]
      · cases hx : r.priv with
        | none =>
          simp only [xwl_glamor_hybris_destroy_pixmap, bind_apply, pure_apply,
            deref_of_pixmap hp, hx]
        | some x =>
          simp only [xwl_glamor_hybris_destroy_pixmap, bind_apply, pure_apply,
            deref_of_pixmap hp, hx, href, if_false]
    refine ⟨heq, ?_, ?_⟩
    · rw [heq]
      simp [fbDestroyPixmap, Res.state, release_calls]
    · intro href
      have hsub : r.refcnt - 1 ≠ 0 := by omega
      rw [heq]
      simp only [fbDestroyPixmap, Res.state, State.pixmap, h0, if_false, drop_reference, hl,
        hsub, ne_eq, not_false_eq_true, if_true]
      exact heap_lookup_update pixmap _ s.heap r hl
  · cases hx : r.priv with
    | none =>
      simp only [xwl_glamor_hybris_destroy_pixmap, bind_apply, pure_apply, deref_of_pixmap hp,
        hx, fbDestroyPixmap]
      exact ⟨_, _, [], rfl, by simp, by simp⟩
    | some x =>
      by_cases href : r.refcnt = 1
      · by_cases hb : x.buffer = 0 <;> by_cases hn : x.buf = 0 <;>
        · simp only [xwl_glamor_hybris_destroy_pixmap, bind_apply, pure_apply,
            deref_of_pixmap hp, hx, href, hb, hn, emit, xwl_pixmap_set_private, fbDestroyPixmap,
            ne_eq, not_true_eq_false, not_false_eq_true, if_true, if_false]
          refine ⟨_, _, (if x.buffer ≠ 0 then [Event.wl_buffer_destroy x.buffer] else [])
            ++ [Event.eglDestroyImageKHR x.image]
            ++ (if x.buf ≠ 0 then [Event.eglHybrisReleaseNativeBuffer x.buf] else [])
            ++ [Event.xwl_pixmap_set_private pixmap none], rfl, ?_, ?_⟩
          · simp [hb, hn]
          · intro q b
            simp [hb, hn]
      · simp only [xwl_glamor_hybris_destroy_pixmap, bind_apply, pure_apply,
          deref_of_pixmap hp, hx, href, if_false, fbDestroyPixmap]
        exact ⟨_, _, [], rfl, by simp, by simp⟩

/-- C4 at a shared pixmap (two references, transport buffer cached): only the generic
destructor runs, and the record stays. -/
theorem destroy_pixmap_tears_down_only_on_final_release_witness :
    (surface_state 2 (some shared_record)).pixmap 1
        = some (surface_record 2 (some shared_record)) ∧
      xwl_glamor_hybris_destroy_pixmap sample_env 1 (surface_state 2 (some shared_record))
        = fbDestroyPixmap sample_env 1 (surface_state 2 (some shared_record)) ∧
      (xwl_glamor_hybris_destroy_pixmap sample_env 1
          (surface_state 2 (some shared_record))).state.pixmap 1
        = some { surface_record 2 (some shared_record) with
                 refcnt := (surface_record 2 (some shared_record)).refcnt - 1 } :=
  ⟨by decide,
    ((destroy_pixmap_tears_down_only_on_final_release sample_env
        (surface_state 2 (some shared_record)) 1 (surface_record 2 (some shared_record))
        (by decide)).1 (Or.inr (by decide))).1,
    ((destroy_pixmap_tears_down_only_on_final_release sample_env
        (surface_state 2 (some shared_record)) 1 (surface_record 2 (some shared_record))
        (by decide)).1 (Or.inr (by decide))).2.2 (by decide)⟩

/-! ## C2 and C7: the transport buffer -/

theorem get_wl_buffer_cached_run (env : Env) (s : State) (pixmap : Nat) (r : PixmapRec)
    (x : xwl_pixmap) (created : Option Bool)
    (hp : s.pixmap pixmap = some r) (hx : r.priv = some x) (hb : x.buffer ≠ 0) :
    xwl_glamor_hybris_get_wl_buffer_for_pixmap env pixmap created s
      = .ok (x.buffer, created.map (fun _ => false)) s := by
  simp only [xwl_glamor_hybris_get_wl_buffer_for_pixmap, bind_apply, pure_apply,
    deref_of_pixmap hp, hx, hb, ne_eq, not_false_eq_true, if_true]

theorem get_wl_buffer_fresh_run (env : Env) (s : State) (pixmap : Nat) (r : PixmapRec)
    (x : xwl_pixmap) (created : Option Bool)
    (hp : s.pixmap pixmap = some r) (hx : r.priv = some x)
    (hbuf : x.buf ≠ 0) (hnb : x.buffer = 0) :
    ∃ numInts numFds ints fds handle buffer s1,
      (env.eglHybrisGetNativeBufferInfo s.trace x.buf).getD (0, 0) = (numInts, numFds) ∧
      ints = (List.range numInts).map
        (env.eglHybrisSerializeNativeBuffer
          (s.trace ++ [Event.eglHybrisGetNativeBufferInfo x.buf numInts numFds]) x.buf).1 ∧
      fds = (List.range numFds).map
        (env.eglHybrisSerializeNativeBuffer
          (s.trace ++ [Event.eglHybrisGetNativeBufferInfo x.buf numInts numFds]) x.buf).2 ∧
      xwl_glamor_hybris_get_wl_buffer_for_pixmap env pixmap created s
        = .ok (buffer, created.map (fun _ => true)) s1 ∧
      s1.trace = s.trace
        ++ [Event.eglHybrisGetNativeBufferInfo x.buf numInts numFds,
            Event.eglHybrisSerializeNativeBuffer x.buf ints fds,
            Event.android_wlegl_create_handle s.android_wlegl numFds ints handle]
        ++ fds.map (Event.android_wlegl_handle_add_fd handle)
        ++ [Event.android_wlegl_create_buffer s.android_wlegl r.width r.height x.stride
              x.format env.hdr.HYBRIS_USAGE_HW_RENDER handle buffer,
            Event.android_wlegl_handle_destroy handle] ∧
      s1.pixmap pixmap = some { r with priv := some { x with buffer := buffer } } := by
  have h0 := pixmap_ne_zero hp
  have hl := pixmap_lookup hp
  rcases hinfo : (env.eglHybrisGetNativeBufferInfo s.trace x.buf).getD (0, 0) with ⟨ni, nf⟩
  simp only [xwl_glamor_hybris_get_wl_buffer_for_pixmap, bind_apply, pure_apply,
    deref_of_pixmap hp, hx, hbuf, hnb, ne_eq, not_true_eq_false, if_false,
    eglHybrisGetNativeBufferInfo, eglHybrisSerializeNativeBuffer, get_android_wlegl,
    android_wlegl_create_handle, android_wlegl_create_buffer, call, add_fds_run, modify_pixmap,
    emit, hinfo]
  refine ⟨ni, nf, _, _,
    env.android_wlegl_create_handle
      (s.trace ++ [Event.eglHybrisGetNativeBufferInfo x.buf ni nf]
        ++ [Event.eglHybrisSerializeNativeBuffer x.buf
              ((List.range ni).map
                (env.eglHybrisSerializeNativeBuffer
                  (s.trace ++ [Event.eglHybrisGetNativeBufferInfo x.buf ni nf]) x.buf).1)
              ((List.range nf).map
                (env.eglHybrisSerializeNativeBuffer
                  (s.trace ++ [Event.eglHybrisGetNativeBufferInfo x.buf ni nf]) x.buf).2)])
      s.android_wlegl nf
      ((List.range ni).map
        (env.eglHybrisSerializeNativeBuffer
          (s.trace ++ [Event.eglHybrisGetNativeBufferInfo x.buf ni nf]) x.buf).1),
    _, _, rfl, rfl, rfl, rfl, ?_, ?_⟩
  · simp
  · simp only [State.pixmap, h0, if_false]
    exact heap_lookup_update pixmap _ s.heap r hl

/-- C2, as stated, fails. (1) On a pixmap whose record has no native buffer and no
cached transport buffer, both calls return `NULL` and make no outside call, but the
second call, like the first, sets `*created` to `TRUE` (line 226 runs before the
test of line 228), not to `FALSE`.  (2) On a pixmap with native buffer 40, when
`android_wlegl_create_buffer` returns `NULL` nothing is cached, and the second call
queries, serializes and constructs again: the same seven outside calls a second
time, and `*created` is `TRUE` again. -/
theorem get_wl_buffer_second_call_reports_created :
    xwl_glamor_hybris_get_wl_buffer_for_pixmap sample_env 1 (some false)
        (surface_state 1 (some no_native_record))
      = .ok (0, some true) (surface_state 1 (some no_native_record)) ∧
    (¬ ∃ buffer, xwl_glamor_hybris_get_wl_buffer_for_pixmap sample_env 1 (some true)
        (surface_state 1 (some no_native_record))
      = .ok (buffer, some false) (surface_state 1 (some no_native_record))) ∧
    xwl_glamor_hybris_get_wl_buffer_for_pixmap construction_failing_env 1 (some false)
        (surface_state 1 (some bound_record))
      = .ok (0, some true)
          { surface_state 1 (some bound_record) with trace := failed_construction_calls } ∧
    xwl_glamor_hybris_get_wl_buffer_for_pixmap construction_failing_env 1 (some false)
        { surface_state 1 (some bound_record) with trace := failed_construction_calls }
      = .ok (0, some true)
          { surface_state 1 (some bound_record) with
            trace := failed_construction_calls ++ failed_construction_calls } := by
  refine ⟨by decide, ?_, by decide, by decide⟩
  rintro ⟨buffer, h⟩
  have h2 : xwl_glamor_hybris_get_wl_buffer_for_pixmap sample_env 1 (some true)
      (surface_state 1 (some no_native_record))
    = .ok (0, some true) (surface_state 1 (some no_native_record)) := by decide
  rw [h2] at h
  simp at h

/-- C2, amended. Once a call of `xwl_glamor_hybris_get_wl_buffer_for_pixmap` has
returned a transport buffer that is not `NULL`, the next call on the same pixmap
returns the identical buffer and leaves the whole state as it was: no descriptor
query, no serialization, no `android_wlegl_create_handle` or
`android_wlegl_create_buffer` call is added to the trace, the cached buffer is
unchanged, and `*created` is set to `FALSE` when the caller passed a cell. -/
theorem get_wl_buffer_idempotent_once_returned (env : Env) (s s1 : State) (pixmap : Nat)
    (c1 c1out c2 : Option Bool) (buffer : Nat)
    (h1 : xwl_glamor_hybris_get_wl_buffer_for_pixmap env pixmap c1 s = .ok (buffer, c1out) s1)
    (hb : buffer ≠ 0) :
    xwl_glamor_hybris_get_wl_buffer_for_pixmap env pixmap c2 s1
      = .ok (buffer, c2.map (fun _ => false)) s1 := by
  by_cases h0 : pixmap = 0
  · simp [xwl_glamor_hybris_get_wl_buffer_for_pixmap, deref, h0] at h1
  · cases hl : heap_lookup pixmap s.heap with
    | none => simp [xwl_glamor_hybris_get_wl_buffer_for_pixmap, deref, h0, hl] at h1
    | some r =>
      have hp : s.pixmap pixmap = some r := by simp [State.pixmap, h0, hl]
      cases hx : r.priv with
      | none =>
        simp only [xwl_glamor_hybris_get_wl_buffer_for_pixmap, bind_apply, pure_apply,
          deref_of_pixmap hp, hx] at h1
        simp only [Res.ok.injEq, Prod.mk.injEq] at h1
        exact absurd h1.1.1.symm hb
      | some x =>
        by_cases hcached : x.buffer = 0
        · by_cases hbuf : x.buf = 0
          · simp only [xwl_glamor_hybris_get_wl_buffer_for_pixmap, bind_apply, pure_apply,
              deref_of_pixmap hp, hx, hcached, hbuf, ne_eq, not_true_eq_false, if_false,
              if_true] at h1
            simp only [Res.ok.injEq, Prod.mk.injEq] at h1
            exact absurd h1.1.1.symm hb
          · obtain ⟨_, _, _, _, _, b, s2, _, _, _, hrun, _, hpix⟩ :=
              get_wl_buffer_fresh_run env s pixmap r x c1 hp hx hbuf hcached
            rw [hrun] at h1
            simp only [Res.ok.injEq, Prod.mk.injEq] at h1
            obtain ⟨⟨hbb, _⟩, hss⟩ := h1
            subst hbb
            subst hss
            exact get_wl_buffer_cached_run env s2 pixmap _ _ c2 hpix rfl hb
        · rw [get_wl_buffer_cached_run env s pixmap r x c1 hp hx hcached] at h1
          simp only [Res.ok.injEq, Prod.mk.injEq] at h1
          obtain ⟨⟨hbb, _⟩, hss⟩ := h1
          subst hbb
          subst hss
          exact get_wl_buffer_cached_run env s pixmap r x c2 hp hx hcached

/-- C2 amended, at a pixmap with native buffer 40 and nothing cached: the first call
builds transport buffer 60, the second returns it from the cache. -/
theorem get_wl_buffer_idempotent_once_returned_witness :
    xwl_glamor_hybris_get_wl_buffer_for_pixmap sample_env 1 (some false)
        (surface_state 1 (some bound_record))
      = .ok (60, some true)
          (xwl_glamor_hybris_get_wl_buffer_for_pixmap sample_env 1 (some false)
            (surface_state 1 (some bound_record))).state ∧
    (60 : Nat) ≠ 0 ∧
    xwl_glamor_hybris_get_wl_buffer_for_pixmap sample_env 1 (some true)
        (xwl_glamor_hybris_get_wl_buffer_for_pixmap sample_env 1 (some false)
          (surface_state 1 (some bound_record))).state
      = .ok (60, (some true).map (fun _ => false))
          (xwl_glamor_hybris_get_wl_buffer_for_pixmap sample_env 1 (some false)
            (surface_state 1 (some bound_record))).state :=
  ⟨by decide, by decide,
    get_wl_buffer_idempotent_once_returned sample_env (surface_state 1 (some bound_record)) _ 1
      (some false) (some true) (some true) 60 (by decide) (by decide)⟩

/-- C7. For a live pixmap whose record has a native buffer (`buf` not `NULL`) and no
cached transport buffer, with `(numInts, numFds)` the counts the codec reports for
`buf` and `ints`, `fds` the arrays of these lengths after serializing `buf`:
`xwl_glamor_hybris_get_wl_buffer_for_pixmap` adds to the trace the query, the
serialization, one `android_wlegl_create_handle` carrying `numFds` and `ints`, one
`android_wlegl_handle_add_fd` per descriptor of `fds` in index order, one
`android_wlegl_create_buffer` with the drawable's width and height, the record's
stride and format, `HYBRIS_USAGE_HW_RENDER` and that handle, and the destruction of
the handle; the buffer that call returned is stored in the record and returned, and
`*created` is set to `TRUE` when the caller passed a cell. -/
theorem get_wl_buffer_builds_transport_buffer (env : Env) (s : State) (pixmap : Nat)
    (r : PixmapRec) (x : xwl_pixmap) (created : Option Bool)
    (hp : s.pixmap pixmap = some r) (hx : r.priv = some x)
    (hbuf : x.buf ≠ 0) (hnb : x.buffer = 0) :
    ∃ numInts numFds ints fds handle buffer s1,
      (env.eglHybrisGetNativeBufferInfo s.trace x.buf).getD (0, 0) = (numInts, numFds) ∧
      ints = (List.range numInts).map
        (env.eglHybrisSerializeNativeBuffer
          (s.trace ++ [Event.eglHybrisGetNativeBufferInfo x.buf numInts numFds]) x.buf).1 ∧
      fds = (List.range numFds).map
        (env.eglHybrisSerializeNativeBuffer
          (s.trace ++ [Event.eglHybrisGetNativeBufferInfo x.buf numInts numFds]) x.buf).2 ∧
      ints.length = numInts ∧ fds.length = numFds ∧
      xwl_glamor_hybris_get_wl_buffer_for_pixmap env pixmap created s
        = .ok (buffer, created.map (fun _ => true)) s1 ∧
      s1.trace = s.trace
        ++ [Event.eglHybrisGetNativeBufferInfo x.buf numInts numFds,
            Event.eglHybrisSerializeNativeBuffer x.buf ints fds,
            Event.android_wlegl_create_handle s.android_wlegl numFds ints handle]
        ++ fds.map (Event.android_wlegl_handle_add_fd handle)
        ++ [Event.android_wlegl_create_buffer s.android_wlegl r.width r.height x.stride
              x.format env.hdr.HYBRIS_USAGE_HW_RENDER handle buffer,
            Event.android_wlegl_handle_destroy handle] ∧
      s1.pixmap pixmap = some { r with priv := some { x with buffer := buffer } } := by
  obtain ⟨numInts, numFds, ints, fds, handle, buffer, s1, h1, h2, h3, h4, h5, h6⟩ :=
    get_wl_buffer_fresh_run env s pixmap r x created hp hx hbuf hnb
  exact ⟨numInts, numFds, ints, fds, handle, buffer, s1, h1, h2, h3, by simp [h2], by simp [h3],
    h4, h5, h6⟩

/-- C7 at a pixmap with native buffer 40 and nothing cached. -/
theorem get_wl_buffer_builds_transport_buffer_witness :
    (surface_state 1 (some bound_record)).pixmap 1 = some (surface_record 1 (some bound_record)) ∧
    (surface_record 1 (some bound_record)).priv = some bound_record ∧
    bound_record.buf ≠ 0 ∧ bound_record.buffer = 0 ∧
    ∃ numInts numFds ints fds handle buffer s1,
      (sample_env.eglHybrisGetNativeBufferInfo (surface_state 1 (some bound_record)).trace
          bound_record.buf).getD (0, 0) = (numInts, numFds) ∧
      ints = (List.range numInts).map
        (sample_env.eglHybrisSerializeNativeBuffer
          ((surface_state 1 (some bound_record)).trace
            ++ [Event.eglHybrisGetNativeBufferInfo bound_record.buf numInts numFds])
          bound_record.buf).1 ∧
      fds = (List.range numFds).map
        (sample_env.eglHybrisSerializeNativeBuffer
          ((surface_state 1 (some bound_record)).trace
            ++ [Event.eglHybrisGetNativeBufferInfo bound_record.buf numInts numFds])
          bound_record.buf).2 ∧
      ints.length = numInts ∧ fds.length = numFds ∧
      xwl_glamor_hybris_get_wl_buffer_for_pixmap sample_env 1 (some false)
          (surface_state 1 (some bound_record))
        = .ok (buffer, (some false).map (fun _ => true)) s1 ∧
      s1.trace = (surface_state 1 (some bound_record)).trace
        ++ [Event.eglHybrisGetNativeBufferInfo bound_record.buf numInts numFds,
            Event.eglHybrisSerializeNativeBuffer bound_record.buf ints fds,
            Event.android_wlegl_create_handle (surface_state 1 (some bound_record)).android_wlegl
              numFds ints handle]
        ++ fds.map (Event.android_wlegl_handle_add_fd handle)
        ++ [Event.android_wlegl_create_buffer
              (surface_state 1 (some bound_record)).android_wlegl
              (surface_record 1 (some bound_record)).width
              (surface_record 1 (some bound_record)).height bound_record.stride
              bound_record.format sample_env.hdr.HYBRIS_USAGE_HW_RENDER handle buffer,
            Event.android_wlegl_handle_destroy handle] ∧
      s1.pixmap 1
        = some { surface_record 1 (some bound_record) with
                 priv := some { bound_record with buffer := buffer } } :=
  ⟨by decide, rfl, by decide, rfl,
    get_wl_buffer_builds_transport_buffer sample_env (surface_state 1 (some bound_record)) 1
      (surface_record 1 (some bound_record)) bound_record (some false) (by decide) rfl
      (by decide) rfl⟩

/-- The run C7 describes, spelled out at the pixmap with native buffer 40: three
integers and two descriptors go into handle 50, and buffer 60 is built from it. -/
theorem get_wl_buffer_sample_run :
    xwl_glamor_hybris_get_wl_buffer_for_pixmap sample_env 1 (some false)
        (surface_state 1 (some bound_record))
      = .ok (60, some true)
          { surface_state 1 (some shared_record) with
            trace := [.eglHybrisGetNativeBufferInfo 40 3 2,
                      .eglHybrisSerializeNativeBuffer 40 [10, 11, 12] [20, 21],
                      .android_wlegl_create_handle 0 2 [10, 11, 12] 50,
                      .android_wlegl_handle_add_fd 50 20,
                      .android_wlegl_handle_add_fd 50 21,
                      .android_wlegl_create_buffer 0 800 600 800 1 512 50 60,
                      .android_wlegl_handle_destroy 50] } := by
  decide

/-! ## C5: what is rolled back when binding fails -/

/-- C5, the code at a failing input. A valid request (800x600, depth 24, hint 0) for
which the allocator hands out native buffer 40 and `eglCreateImageKHR` then returns
`EGL_NO_IMAGE_KHR`: the binder destroys its pixmap and the generic constructor
supplies the result, but no `eglHybrisReleaseNativeBuffer` call is made, so native
buffer 40 is never released. -/
theorem create_pixmap_import_failure_keeps_native_buffer :
    xwl_glamor_hybris_create_pixmap import_failing_env 800 600 24 0 empty_state
      = .ok 2
          { empty_state with
            heap := [(2, { refcnt := 1, width := 800, height := 600, depth := 24,
                           usage_hint := 0, glamor_texture := 0,
                           glamor_type := .GLAMOR_MEMORY, priv := none })]
            last := 2
            trace := [.eglHybrisCreateNativeBuffer 800 600 512 1 800 40,
                      .glamor_create_pixmap 800 600 24 262 1,
                      .xwl_glamor_egl_make_current,
                      .eglCreateImageKHR 40 0,
                      .glamor_destroy_pixmap 1,
                      .glamor_create_pixmap 800 600 24 0 2] } ∧
    native_buffer_releases
      (xwl_glamor_hybris_create_pixmap import_failing_env 800 600 24 0 empty_state).state.trace
      = 0 := by
  decide

/-! ## C8: the export half of the capability pair -/

/-- C8, the code at a failing input. On a pixmap whose record has native buffer 40,
cached transport buffer 60 and stride 800, with the caller's `*stride` holding 9:
`glamor_hybris_buffer_from_pixmap` hands the codec the `buffer` field (60, the
`wl_buffer`), not the `buf` field (40), and never writes `*stride`.  The codec, which
describes native buffer 40 by three integers and two descriptors, knows nothing of
60, so the counts stay 0 and the arrays are empty. -/
theorem buffer_from_pixmap_uses_transport_buffer :
    glamor_hybris_buffer_from_pixmap sample_env 1 9 0 0 (surface_state 1 (some shared_record))
      = .ok (0, { stride := 9, numInts := 0, ints := [], numFds := 0, fds := [] })
          { surface_state 1 (some shared_record) with
            trace := [.eglHybrisGetNativeBufferInfo 60 0 0,
                      .eglHybrisSerializeNativeBuffer 60 [] []] } ∧
    shared_record.stride = 800 ∧
    sample_env.eglHybrisGetNativeBufferInfo [] shared_record.buf = some (3, 2) := by
  decide

/-! ## C10: the failure path of the import entry point -/

/-- C10, the code at failing inputs. (1) A valid request whose binding fails
(`eglCreateImageKHR` returns `EGL_NO_IMAGE_KHR`): `*pixmap` is `NULL`, and
`screen->DestroyPixmap(NULL)` reads through it at line 179.  (2) A request that
validation rejects (`bpp` 24): the local `pixmap` was never written; when the stack
holds `NULL` the destructor reads through `NULL`, and (3) when it holds the address
of a live pixmap with one reference, the destructor tears that pixmap down:
`wl_buffer_destroy`, `eglDestroyImageKHR` and `eglHybrisReleaseNativeBuffer` are
called on an existing surface and the pixmap is freed. -/
theorem pixmap_from_buffer_failure_path_dereferences :
    glamor_pixmap_from_hybris_buffer import_failing_env 800 600 3200 24 32 3 [10, 11, 12] 2
        [20, 21] empty_state
      = .fault .null_deref
          { empty_state with
            last := 1
            trace := [.eglHybrisCreateRemoteBuffer 800 600 256 1 3200 3 [10, 11, 12] 2 [20, 21] 41,
                      .glamor_create_pixmap 800 600 24 262 1,
                      .xwl_glamor_egl_make_current,
                      .eglCreateImageKHR 41 0,
                      .glamor_destroy_pixmap 1] } ∧
    glamor_pixmap_from_hybris_buffer sample_env 800 600 3200 24 24 3 [10, 11, 12] 2 [20, 21]
        empty_state
      = .fault .null_deref empty_state ∧
    glamor_pixmap_from_hybris_buffer stale_pointer_env 800 600 3200 24 24 3 [10, 11, 12] 2
        [20, 21] (surface_state 1 (some shared_record))
      = .ok 0
          { empty_state with
            last := 1
            trace := [.wl_buffer_destroy 60, .eglDestroyImageKHR 140,
                      .eglHybrisReleaseNativeBuffer 40, .xwl_pixmap_set_private 1 none,
                      .fbDestroyPixmap 1 true] } := by
  decide

/-! ## C9: the registry hook and the availability hook -/

theorem announce_run (env : Env) (announcements : List Announcement) (s : State) :
    ∃ s1, announce env announcements s = .ok () s1 := by
  induction announcements generalizing s with
  | nil => exact ⟨s, rfl⟩
  | cons a rest ih =>
    by_cases hn : a.name = "android_wlegl"
    · simp only [announce, xwl_glamor_hybris_init_wl_registry, hn, if_true, bind_apply,
        pure_apply, wl_registry_bind, call, set_android_wlegl]
      exact ih _
    · simp only [announce, xwl_glamor_hybris_init_wl_registry, hn, if_false, bind_apply,
        pure_apply]
      exact ih _

/-- C9, as stated, fails: after `xwl_glamor_init_hybris` and one announcement, named
"wl_compositor", `xwl_glamor_hybris_has_wl_interfaces` returns `TRUE` although no
announcement named "android_wlegl" has been processed and the stored binding is
still `NULL`. -/
theorem has_wl_interfaces_true_without_binding :
    (has_wl_interfaces_after sample_env [⟨1, "wl_compositor", 4⟩] empty_state).value = some true ∧
    (has_wl_interfaces_after sample_env [⟨1, "wl_compositor", 4⟩] empty_state).state.android_wlegl
      = 0 ∧
    ¬ ((has_wl_interfaces_after sample_env [⟨1, "wl_compositor", 4⟩] empty_state).value
          = some true ↔
        ∃ a ∈ [(⟨1, "wl_compositor", 4⟩ : Announcement)], a.name = "android_wlegl") := by
  refine ⟨by decide, by decide, ?_⟩
  intro h
  have h1 : (has_wl_interfaces_after sample_env [⟨1, "wl_compositor", 4⟩] empty_state).value
      = some true := by decide
  obtain ⟨a, ha, hname⟩ := h.mp h1
  simp only [List.mem_singleton] at ha
  subst ha
  exact absurd hname (by decide)

/-- C9, amended. In every state reached from `xwl_glamor_init_hybris` by any sequence
of announcements, `xwl_glamor_hybris_has_wl_interfaces` returns `TRUE`, whether or
not an announcement named "android_wlegl" was among them.  The registry hook
returns `TRUE` exactly for an announcement named "android_wlegl", for which it makes
one `wl_registry_bind` call and stores what that returned in
`glamor_egl->android_wlegl`; for any other name it returns `FALSE` and leaves the
state, the stored binding included, unchanged. -/
theorem has_wl_interfaces_always_true (env : Env) (announcements : List Announcement)
    (id version : Nat) (name : String) (s : State) :
    (has_wl_interfaces_after env announcements s).value = some true ∧
    xwl_glamor_hybris_init_wl_registry env id name version s
      = (if name = "android_wlegl" then
          .ok true
            { s with
              android_wlegl := env.wl_registry_bind s.trace id version
              trace := s.trace
                ++ [Event.wl_registry_bind id version (env.wl_registry_bind s.trace id version)] }
        else .ok false s) := by
  constructor
  · obtain ⟨s1, h1⟩ := announce_run env announcements
      { s with android_wlegl := 0, is_available := true,
               trace := s.trace ++ [Event.drihybris_extension_init] }
    simp only [has_wl_interfaces_after, xwl_glamor_init_hybris, bind_apply, pure_apply,
      set_android_wlegl, emit, xwl_glamor_hybris_has_wl_interfaces, h1, Res.value]
  · by_cases hn : name = "android_wlegl"
    · simp only [xwl_glamor_hybris_init_wl_registry, hn, if_true, bind_apply, pure_apply,
        wl_registry_bind, call, set_android_wlegl]
    · simp only [xwl_glamor_hybris_init_wl_registry, hn, if_false, pure_apply]

/-! ## C6: image and texture come together -/

theorem create_pixmap_for_native_buffer_error_run (pixmap image : Nat) (s : State)
    (hp : pixmap ≠ 0) :
    xwl_glamor_hybris_create_pixmap_for_native_buffer_error pixmap image s
      = .ok 0
          { s with
            heap := drop_reference pixmap s.heap
            trace := s.trace
              ++ (if image ≠ EGL_NO_IMAGE_KHR then [Event.eglDestroyImageKHR image] else [])
              ++ [Event.glamor_destroy_pixmap pixmap] } := by
  by_cases hi : image = EGL_NO_IMAGE_KHR
  · simp [xwl_glamor_hybris_create_pixmap_for_native_buffer_error, hi, hp, glamor_destroy_pixmap]
  · simp [xwl_glamor_hybris_create_pixmap_for_native_buffer_error, hi, hp, glamor_destroy_pixmap,
      emit]

theorem drop_reference_fresh (a : Nat) (r : PixmapRec) (heap : List (Nat × PixmapRec))
    (h : r.refcnt = 1) : drop_reference a ((a, r) :: heap) = heap := by
  simp [drop_reference, heap_lookup, heap_erase, h]

theorem create_pixmap_for_native_buffer_cases (env : Env) (s : State) (buf : Nat)
    (width height depth format stride : Int) :
    (∃ pixmap s1,
      xwl_glamor_hybris_create_pixmap_for_native_buffer env buf width height depth format stride s
        = .ok pixmap s1 ∧
      pixmap ≠ 0 ∧
      ∃ r x, s1.pixmap pixmap = some r ∧ r.priv = some x ∧
        x.image ≠ EGL_NO_IMAGE_KHR ∧ x.texture ≠ 0 ∧ r.glamor_texture = x.texture ∧
        r.glamor_type = .GLAMOR_TEXTURE_DRM ∧
        x = { buffer := 0, buf := buf, image := x.image, texture := x.texture, stride := stride,
              format := format }) ∨
    (∃ s1,
      xwl_glamor_hybris_create_pixmap_for_native_buffer env buf width height depth format stride s
        = .ok 0 s1 ∧
      s1.heap = s.heap ∧
      ∃ calls, s1.trace = s.trace ++ calls ∧
        (∀ q xp, Event.xwl_pixmap_set_private q xp ∉ calls) ∧
        (∀ b image, image ≠ EGL_NO_IMAGE_KHR → Event.eglCreateImageKHR b image ∈ calls →
          Event.eglDestroyImageKHR image ∈ calls)) := by
  cases hm : env.malloc_xwl_pixmap s.trace with
  | false =>
    right
    simp only [xwl_glamor_hybris_create_pixmap_for_native_buffer, bind_apply, pure_apply,
      malloc_xwl_pixmap, hm, ↓reduceIte]
    exact ⟨_, rfl, rfl, [], by simp, by simp, by simp⟩
  | true =>
    cases hc : env.glamor_create_pixmap s.trace width height depth
        env.hdr.GLAMOR_CREATE_PIXMAP_NO_TEXTURE with
    | false =>
      right
      simp only [xwl_glamor_hybris_create_pixmap_for_native_buffer, bind_apply, pure_apply,
        malloc_xwl_pixmap, hm, glamor_create_pixmap, hc, Bool.false_eq_true, Bool.true_eq_false,
        ↓reduceIte]
      exact ⟨_, rfl, rfl, _, rfl, by simp, by simp⟩
    | true =>
      simp only [xwl_glamor_hybris_create_pixmap_for_native_buffer, bind_apply, pure_apply,
        malloc_xwl_pixmap, hm, glamor_create_pixmap, hc, Bool.true_eq_false, ↓reduceIte,
        Nat.add_one_ne_zero, emit, eglCreateImageKHR, call]
      generalize env.eglCreateImageKHR _ buf = image
      by_cases hi : image = EGL_NO_IMAGE_KHR
      · right
        simp only [hi, ↓reduceIte, ne_eq, not_true_eq_false,
          create_pixmap_for_native_buffer_error_run _ _ _ (Nat.add_one_ne_zero s.last)]
        refine ⟨_, rfl, ?_, ?_⟩
        · simp [drop_reference_fresh]
        · simp only [List.append_assoc, List.cons_append, List.nil_append]
          refine ⟨_, rfl, by simp, ?_⟩
          intro b im hne hmem
          simp_all
      · simp only [hi, ↓reduceIte, bind_apply, pure_apply, emit, glGenTextures, eglGetError, call]
        generalize env.glGenTextures _ = texture
        generalize env.eglGetError _ = err
        by_cases he : err = env.hdr.EGL_SUCCESS
        · simp only [he, ne_eq, not_true_eq_false, ↓reduceIte, bind_apply, pure_apply, emit,
            glamor_set_pixmap_texture, glamor_get_pixmap_texture, heap_update, heap_lookup,
            Option.elim]
          generalize env.glamor_set_pixmap_texture _ _ texture = registered
          by_cases hr : (if registered = true then texture else 0) = 0
          · right
            simp only [hr, hi, ↓reduceIte, ne_eq, not_false_eq_true,
              create_pixmap_for_native_buffer_error_run _ _ _ (Nat.add_one_ne_zero s.last)]
            refine ⟨_, rfl, ?_, ?_⟩
            · simp [drop_reference_fresh]
            · simp only [List.append_assoc, List.cons_append, List.nil_append]
              refine ⟨_, rfl, by simp, ?_⟩
              intro b im hne hmem
              simp_all
          · left
            simp only [hr, ↓reduceIte, bind_apply, pure_apply, glamor_set_pixmap_type,
              xwl_pixmap_set_private, heap_update]
            refine ⟨_, _, rfl, Nat.add_one_ne_zero _, ?_⟩
            cases registered
            · simp at hr
            · simp only [if_true] at hr
              simp [State.pixmap, heap_lookup, hi, hr]
        · right
          simp only [he, hi, ne_eq, not_false_eq_true, ↓reduceIte,
            create_pixmap_for_native_buffer_error_run _ _ _ (Nat.add_one_ne_zero s.last)]
          refine ⟨_, rfl, ?_, ?_⟩
          · simp [drop_reference_fresh]
          · simp only [List.append_assoc, List.cons_append, List.nil_append]
            refine ⟨_, rfl, by simp, ?_⟩
            intro b im hne hmem
            simp_all

theorem glamor_create_pixmap_fresh (env : Env) (w h depth : Int) (usage : Nat) (s : State) :
    ∃ pixmap s1, glamor_create_pixmap env w h depth usage s = .ok pixmap s1 ∧
      (pixmap = 0 ∨ ∃ r, s1.pixmap pixmap = some r ∧ r.priv = none) := by
  cases hc : env.glamor_create_pixmap s.trace w h depth usage with
  | false =>
    simp only [glamor_create_pixmap, hc, Bool.false_eq_true, ↓reduceIte]
    exact ⟨_, _, rfl, Or.inl rfl⟩
  | true =>
    simp only [glamor_create_pixmap, hc, ↓reduceIte]
    refine ⟨_, _, rfl, Or.inr ?_⟩
    simp [State.pixmap, heap_lookup]

/-- C6. Every call of `xwl_glamor_hybris_create_pixmap_for_native_buffer` ends in one
of two ways.  Either it returns a pixmap, not `NULL`, whose attached record has an
image different from `EGL_NO_IMAGE_KHR` and a texture that is the texture registered
for the pixmap in glamor, with pixmap type `GLAMOR_TEXTURE_DRM` (and `buf`, stride
and format as passed, no transport buffer).  Or it returns `NULL`, the heap of
pixmaps is as before, no `xwl_pixmap_set_private` call was made, and every image an
`eglCreateImageKHR` call of this run returned was handed to `eglDestroyImageKHR`.
Consequently, for every request, `xwl_glamor_hybris_create_pixmap` returns `NULL`
or a pixmap that has either no private record (neither image nor texture) or a
record with both an image and a registered texture. -/
theorem create_pixmap_binds_image_and_texture_together (env : Env) (s : State) (buf : Nat)
    (width height depth format stride : Int) (hint : Nat) :
    ((∃ pixmap s1,
        xwl_glamor_hybris_create_pixmap_for_native_buffer env buf width height depth format
          stride s = .ok pixmap s1 ∧
        pixmap ≠ 0 ∧
        ∃ r x, s1.pixmap pixmap = some r ∧ r.priv = some x ∧
          x.image ≠ EGL_NO_IMAGE_KHR ∧ x.texture ≠ 0 ∧ r.glamor_texture = x.texture ∧
          r.glamor_type = .GLAMOR_TEXTURE_DRM ∧
          x = { buffer := 0, buf := buf, image := x.image, texture := x.texture,
                stride := stride, format := format }) ∨
      (∃ s1,
        xwl_glamor_hybris_create_pixmap_for_native_buffer env buf width height depth format
          stride s = .ok 0 s1 ∧
        s1.heap = s.heap ∧
        ∃ calls, s1.trace = s.trace ++ calls ∧
          (∀ q xp, Event.xwl_pixmap_set_private q xp ∉ calls) ∧
          (∀ b image, image ≠ EGL_NO_IMAGE_KHR → Event.eglCreateImageKHR b image ∈ calls →
            Event.eglDestroyImageKHR image ∈ calls))) ∧
    (∃ pixmap s1, xwl_glamor_hybris_create_pixmap env width height depth hint s = .ok pixmap s1 ∧
      (pixmap = 0 ∨
        ∃ r, s1.pixmap pixmap = some r ∧
          (r.priv = none ∨
            ∃ x, r.priv = some x ∧ x.image ≠ EGL_NO_IMAGE_KHR ∧ x.texture ≠ 0 ∧
              r.glamor_texture = x.texture))) := by
  refine ⟨create_pixmap_for_native_buffer_cases env s buf width height depth format stride, ?_⟩
  by_cases hv : 0 < width ∧ 0 < height ∧ 15 ≤ depth ∧
      (hint = 0 ∨ hint = env.hdr.CREATE_PIXMAP_USAGE_BACKING_PIXMAP ∨
        hint = env.hdr.CREATE_PIXMAP_USAGE_SHARED)
  · rcases hcall : eglHybrisCreateNativeBuffer env width height env.hdr.HYBRIS_USAGE_HW_RENDER
        env.hdr.HYBRIS_PIXEL_FORMAT_RGBA_8888 0 env.uninit_buf s with ⟨out, s0⟩ | ⟨f, s0⟩
    · rcases create_pixmap_for_native_buffer_cases env s0 out.2 width height depth
          env.hdr.HYBRIS_PIXEL_FORMAT_RGBA_8888 (to_int32 (to_uint32 out.1)) with
        ⟨p, s1, hrun, hp0, r, x, hpix, hx, hi, ht, hrt, _, _⟩ | ⟨s1, hrun, _, _⟩
      · simp only [xwl_glamor_hybris_create_pixmap, if_pos hv, bind_apply, pure_apply, hcall,
          hrun, get_rootless]
        by_cases hcl : p ≠ 0 ∧ s1.rootless = true ∧
            hint = env.hdr.CREATE_PIXMAP_USAGE_BACKING_PIXMAP
        · simp only [if_pos hcl, bind_apply, pure_apply, emit, if_neg hp0]
          exact ⟨_, _, rfl, Or.inr ⟨r, by simpa [State.pixmap] using hpix,
            Or.inr ⟨x, hx, hi, ht, hrt⟩⟩⟩
        · simp only [if_neg hcl, bind_apply, pure_apply, if_neg hp0]
          exact ⟨_, _, rfl, Or.inr ⟨r, hpix, Or.inr ⟨x, hx, hi, ht, hrt⟩⟩⟩
      · obtain ⟨p, s2, hgen, hfresh⟩ := glamor_create_pixmap_fresh env width height depth hint s1
        simp only [xwl_glamor_hybris_create_pixmap, if_pos hv, bind_apply, pure_apply, hcall,
          hrun, get_rootless, ne_eq, not_true_eq_false, false_and, ↓reduceIte, hgen]
        refine ⟨_, _, rfl, ?_⟩
        rcases hfresh with h0 | ⟨r, hr, hnone⟩
        · exact Or.inl h0
        · exact Or.inr ⟨r, hr, Or.inl hnone⟩
    · simp [eglHybrisCreateNativeBuffer, call] at hcall
  · obtain ⟨p, s2, hgen, hfresh⟩ := glamor_create_pixmap_fresh env width height depth hint s
    simp only [xwl_glamor_hybris_create_pixmap, if_neg hv, bind_apply, pure_apply, ↓reduceIte,
      hgen]
    refine ⟨_, _, rfl, ?_⟩
    rcases hfresh with h0 | ⟨r, hr, hnone⟩
    · exact Or.inl h0
    · exact Or.inr ⟨r, hr, Or.inl hnone⟩

end XwlHybris
